import Mathlib

/-
Verification of the fraud-score data pipeline
(glue_scripts/extract_training_data.py, glue_scripts/extract_inference_data.py,
glue_scripts/load_scores_to_snowflake.py, sagemaker/training_script.py,
sagemaker/inference.py).

The development shallowly embeds the data model and the row-level operations of
the pipeline: the SQL cleaning expressions interpolated by the two extractor
scripts, the train/test split, the ordinal categorical encoder used by the
training and serving scripts, feature assembly and reindexing, the positional
id-to-score join of the loader, and the serving content-type dispatch.
Scalar warehouse values are modelled by an explicit sum type with a null case;
numbers are rationals.
-/

set_option maxRecDepth 4000

/-- Raw scalar value of one warehouse cell: null, boolean, text or number.
Numbers are modelled as rationals. -/
inductive Value where
  | null : Value
  | bool (b : Bool) : Value
  | str (s : String) : Value
  | num (q : ℚ) : Value
deriving DecidableEq, Repr

/-- Declared type of a column in the Feature Contract: the three disjoint
column classes of the extraction scripts. -/
inductive ColType where
  | boolean : ColType
  | categorical : ColType
  | numeric : ColType
deriving DecidableEq, Repr

/-- SQL COALESCE of two values: the first argument unless it is null. -/
def coalesce (a b : Value) : Value :=
  if a = Value.null then b else a

/-- SQL ternary-logic equality test of a value against TRUE, as used by the
expression CASE WHEN col = TRUE THEN 1 ELSE 0 END: the comparison is true only
when the operand is the boolean true; a null or non-true operand falls to the
ELSE branch. -/
def sql_eq_true (v : Value) : Bool :=
  match v with
  | Value.bool true => true
  | _ => false

/-- Semantics of CASE WHEN col = TRUE THEN 1 ELSE 0 END from
build_preprocessing_sql and build_inference_sql. The CASE has an ELSE branch,
so it never produces null. -/
def case_when_true (v : Value) : Value :=
  if sql_eq_true v then Value.num 1 else Value.num 0

/-- Semantics of TO_VARCHAR: null maps to null, text is unchanged, booleans and
numbers map to their textual representation. -/
def to_varchar (v : Value) : Value :=
  match v with
  | Value.null => Value.null
  | Value.str s => Value.str s
  | Value.bool b => Value.str (if b then "true" else "false")
  | Value.num q => Value.str (toString q)

/-- Row-level semantics of the per-column cleaning expression that both
extractor scripts interpolate into their SELECT:
boolean columns use COALESCE(CASE WHEN col = TRUE THEN 1 ELSE 0 END, 0),
categorical columns use COALESCE(TO_VARCHAR(col), the literal MISSING),
numeric columns use COALESCE(col, 0). -/
def clean (t : ColType) (v : Value) : Value :=
  match t with
  | ColType.boolean => coalesce (case_when_true v) (Value.num 0)
  | ColType.categorical => coalesce (to_varchar v) (Value.str "MISSING")
  | ColType.numeric => coalesce v (Value.num 0)

/-- Textual cleaning expression emitted for one boolean column by
build_preprocessing_sql in extract_training_data.py. -/
def training_bool_expr (c : String) : String :=
  "COALESCE(CASE WHEN " ++ c ++ " = TRUE THEN 1 ELSE 0 END, 0) AS " ++ c

/-- Textual cleaning expression emitted for one categorical column by
build_preprocessing_sql in extract_training_data.py. -/
def training_cat_expr (c : String) : String :=
  "COALESCE(TO_VARCHAR(" ++ c ++ "), 'MISSING') AS " ++ c

/-- Textual cleaning expression emitted for one numeric column by
build_preprocessing_sql in extract_training_data.py. -/
def training_num_expr (c : String) : String :=
  "COALESCE(" ++ c ++ ", 0) AS " ++ c

/-- Textual cleaning expression emitted for one boolean column by
build_inference_sql in extract_inference_data.py. -/
def inference_bool_expr (c : String) : String :=
  "COALESCE(CASE WHEN " ++ c ++ " = TRUE THEN 1 ELSE 0 END, 0) AS " ++ c

/-- Textual cleaning expression emitted for one categorical column by
build_inference_sql in extract_inference_data.py. -/
def inference_cat_expr (c : String) : String :=
  "COALESCE(TO_VARCHAR(" ++ c ++ "), 'MISSING') AS " ++ c

/-- Textual cleaning expression emitted for one numeric column by
build_inference_sql in extract_inference_data.py. -/
def inference_num_expr (c : String) : String :=
  "COALESCE(" ++ c ++ ", 0) AS " ++ c

example : clean ColType.boolean (Value.bool true) = Value.num 1 := by decide
example : clean ColType.boolean Value.null = Value.num 0 := by decide
example : clean ColType.categorical Value.null = Value.str "MISSING" := by decide
example : clean ColType.categorical (Value.str "") = Value.str "" := by decide
example : clean ColType.numeric Value.null = Value.num 0 := by decide

namespace ExtractTrainingData

/-- Target column name declared in glue_scripts/extract_training_data.py. -/
def TARGET : String :=
  "IPQS_DEVICE_FP_FRAUD_SCORE"

/-- Column list BOOLEAN_FEATURES declared in glue_scripts/extract_training_data.py. -/
def BOOLEAN_FEATURES : List String :=
  ["IP_API_HOSTING",
   "IP_API_MOBILE",
   "IP_API_PROXY"]

/-- Column list CATEGORICAL_FEATURES declared in glue_scripts/extract_training_data.py. -/
def CATEGORICAL_FEATURES : List String :=
  ["IP_API_CITY",
   "IP_API_COUNTRY",
   "IP_API_COUNTRY_CODE",
   "IP_API_ORG",
   "IP_API_REGION",
   "IP_API_STATUS",
   "IP_API_TIMEZONE",
   "BROWSERNAME",
   "BROWSERVERSION",
   "DEVICECATEGORY",
   "DEVICETYPE",
   "OPERATINGSYSTEM",
   "OPERATINGSYSTEMVERSION",
   "PROPERTY_NAME",
   "PUBLISHER_NAME",
   "UTM_CONTENT",
   "UTM_TERM",
   "UTM_MEDIUM",
   "UTM_SOURCE",
   "VISITOR_TYPE",
   "DOMAIN",
   "STATE",
   "EMAIL_VERIFICATION_RESPONSE"]

/-- Column list NUMERIC_FEATURES declared in glue_scripts/extract_training_data.py. -/
def NUMERIC_FEATURES : List String :=
  ["IP_API_LATITUDE",
   "IP_API_LONGITUDE",
   "VISIT_COUNT_FORM_COMPLETED_MEASURE",
   "VISIT_COUNT_FORM_STARTED_MEASURE",
   "VISIT_COUNT_VISIT_TO_PAGE_1_MEASURE",
   "VISIT_COUNT_PAGE_1_TO_PAGE_2_MEASURE",
   "VISIT_COUNT_PAGE_2_TO_PAGE_3_MEASURE",
   "SECONDS_SPENT_FORM_MEASURE",
   "SECONDS_SPENT_FORM_COMPLETE_MEASURE",
   "SECONDS_SPENT_PAGE_1_TO_2_MEASURE",
   "SECONDS_SPENT_PAGE_2_TO_3_MEASURE",
   "SECONDS_SPENT_VISIT_TO_PAGE_1_MEASURE",
   "SECONDS_SPENT_ZAN_PRIMARY_MEASURE",
   "SECONDS_SPENT_ZAN_PRIMARY_COMPLETE_MEASURE",
   "SECONDS_SPENT_ZAN_PRIMARY_INCOMPLETE_MEASURE",
   "VISIT_COUNT_ZAN_COMPLETED_LESS_THAN_7_SECONDS_MEASURE",
   "VISIT_COUNT_ZAN_PRIMARY_COMPLETE_MEASURE",
   "VISIT_COUNT_ZAN_PRIMARY_LOAD_MEASURE",
   "VISIT_COUNT_ZAN_SPENT_MORE_THAN_5_MINS_MEASURE",
   "LTV_PIXEL_CAMPAIGN_CLICKS_MEASURE",
   "LTV_PIXEL_CAMPAIGN_IMPRESSIONS_MEASURE",
   "LTV_PIXEL_PURCHASE_COUNT_MEASURE",
   "LTV_PIXEL_REVENUE_MEASURE",
   "LTV_PIXEL_ADVERTISER_COST_MEASURE",
   "FICTITIOUS_CHARACTERS_NAME_MEASURE",
   "FLAGGED_ADDRESS_MEASURE",
   "FLAGGED_NAME_MEASURE",
   "FNLN_EMAIL_STRING_MEASURE",
   "IPQS_FLAGGED_LOCATION_MEASURE",
   "MISSING_ADDRESS_NUMBER_MEASURE",
   "MISSING_STREET_TYPE_MEASURE",
   "VISITS_WITH_PII_COMPLETE_VISITS",
   "RECYCLED_IP_ADDRESS_MEASURE",
   "SINGLE_LETTER_STRING_NAME_MEASURE",
   "THREE_LETTER_STRING_NAME_MEASURE",
   "TWO_LETTER_STRING_NAME_MEASURE",
   "THREE_LETTER_STRING_LEFT_RIGHT_NAME_MEASURE",
   "VULGAR_WORDS_NAME_MEASURE",
   "VISIT_COUNT_ZAN_PRIMARY_INCOMPLETE_MEASURE",
   "POSITION_1_ANSWERS_MEASURE",
   "CAMPAIGN_CLICKS_MEASURE",
   "CAMPAIGN_CONVERSIONS_MEASURE",
   "CAMPAIGN_IMPRESSIONS_MEASURE",
   "CPA_CLICKS_MEASURE",
   "CPA_CONVERSIONS_MEASURE",
   "CPA_IMPRESSIONS_MEASURE",
   "CPA_REVENUE_MEASURE",
   "CPC_CONVERSIONS_MEASURE",
   "CPC_IMPRESSIONS_MEASURE",
   "CPC_REVENUE_MEASURE",
   "CPL_CONVERSIONS_MEASURE",
   "CPL_IMPRESSIONS_MEASURE",
   "CPL_REVENUE_MEASURE",
   "TOTAL_GROSS_REVENUE_MEASURE",
   "LAST_POSITION_ANSWERS_MEASURE",
   "TOTAL_NET_REVENUE_MEASURE",
   "PREPING_SCORE_1_PRIMARY_VISITS",
   "PREPING_SCORE_2_PRIMARY_VISITS",
   "PREPING_SCORE_3_PRIMARY_VISITS",
   "PREPING_SCORE_4_PRIMARY_VISITS",
   "PREPING_SCORE_5_PRIMARY_VISITS",
   "PRIMARY_GROSS_REVENUE_MEASURE",
   "QUESTIONS_ANSWERED_MEASURE",
   "QUESTIONS_IMPRESSED_MEASURE",
   "QUESTIONS_IMPRESSED_FOR_POSITION_RATE_MEASURE",
   "ZAN_SECONDARY_END_OF_PLACEMENT_VISITS_MEASURE",
   "QUESTIONS_ANSWERED_FOR_POSITION_RATE_MEASURE",
   "ZAN_SECONDARY_PLACEMENT_VISITS_MEASURE",
   "SECONDARY_NET_REVENUE_MEASURE"]

end ExtractTrainingData

namespace ExtractInferenceData

/-- Target column name declared in glue_scripts/extract_inference_data.py. -/
def TARGET : String :=
  "IPQS_DEVICE_FP_FRAUD_SCORE"

/-- Column list BOOLEAN_FEATURES declared in glue_scripts/extract_inference_data.py. -/
def BOOLEAN_FEATURES : List String :=
  ["IP_API_HOSTING",
   "IP_API_MOBILE",
   "IP_API_PROXY"]

/-- Column list CATEGORICAL_FEATURES declared in glue_scripts/extract_inference_data.py. -/
def CATEGORICAL_FEATURES : List String :=
  ["IP_API_CITY",
   "IP_API_COUNTRY",
   "IP_API_COUNTRY_CODE",
   "IP_API_ORG",
   "IP_API_REGION",
   "IP_API_STATUS",
   "IP_API_TIMEZONE",
   "BROWSERNAME",
   "BROWSERVERSION",
   "DEVICECATEGORY",
   "DEVICETYPE",
   "OPERATINGSYSTEM",
   "OPERATINGSYSTEMVERSION",
   "PROPERTY_NAME",
   "PUBLISHER_NAME",
   "UTM_CONTENT",
   "UTM_TERM",
   "UTM_MEDIUM",
   "UTM_SOURCE",
   "VISITOR_TYPE",
   "DOMAIN",
   "STATE",
   "EMAIL_VERIFICATION_RESPONSE"]

/-- Column list NUMERIC_FEATURES declared in glue_scripts/extract_inference_data.py. -/
def NUMERIC_FEATURES : List String :=
  ["IP_API_LATITUDE",
   "IP_API_LONGITUDE",
   "VISIT_COUNT_FORM_COMPLETED_MEASURE",
   "VISIT_COUNT_FORM_STARTED_MEASURE",
   "VISIT_COUNT_VISIT_TO_PAGE_1_MEASURE",
   "VISIT_COUNT_PAGE_1_TO_PAGE_2_MEASURE",
   "VISIT_COUNT_PAGE_2_TO_PAGE_3_MEASURE",
   "SECONDS_SPENT_FORM_MEASURE",
   "SECONDS_SPENT_FORM_COMPLETE_MEASURE",
   "SECONDS_SPENT_PAGE_1_TO_2_MEASURE",
   "SECONDS_SPENT_PAGE_2_TO_3_MEASURE",
   "SECONDS_SPENT_VISIT_TO_PAGE_1_MEASURE",
   "SECONDS_SPENT_ZAN_PRIMARY_MEASURE",
   "SECONDS_SPENT_ZAN_PRIMARY_COMPLETE_MEASURE",
   "SECONDS_SPENT_ZAN_PRIMARY_INCOMPLETE_MEASURE",
   "VISIT_COUNT_ZAN_COMPLETED_LESS_THAN_7_SECONDS_MEASURE",
   "VISIT_COUNT_ZAN_PRIMARY_COMPLETE_MEASURE",
   "VISIT_COUNT_ZAN_PRIMARY_LOAD_MEASURE",
   "VISIT_COUNT_ZAN_SPENT_MORE_THAN_5_MINS_MEASURE",
   "LTV_PIXEL_CAMPAIGN_CLICKS_MEASURE",
   "LTV_PIXEL_CAMPAIGN_IMPRESSIONS_MEASURE",
   "LTV_PIXEL_PURCHASE_COUNT_MEASURE",
   "LTV_PIXEL_REVENUE_MEASURE",
   "LTV_PIXEL_ADVERTISER_COST_MEASURE",
   "FICTITIOUS_CHARACTERS_NAME_MEASURE",
   "FLAGGED_ADDRESS_MEASURE",
   "FLAGGED_NAME_MEASURE",
   "FNLN_EMAIL_STRING_MEASURE",
   "IPQS_FLAGGED_LOCATION_MEASURE",
   "MISSING_ADDRESS_NUMBER_MEASURE",
   "MISSING_STREET_TYPE_MEASURE",
   "VISITS_WITH_PII_COMPLETE_VISITS",
   "RECYCLED_IP_ADDRESS_MEASURE",
   "SINGLE_LETTER_STRING_NAME_MEASURE",
   "THREE_LETTER_STRING_NAME_MEASURE",
   "TWO_LETTER_STRING_NAME_MEASURE",
   "THREE_LETTER_STRING_LEFT_RIGHT_NAME_MEASURE",
   "VULGAR_WORDS_NAME_MEASURE",
   "VISIT_COUNT_ZAN_PRIMARY_INCOMPLETE_MEASURE",
   "POSITION_1_ANSWERS_MEASURE",
   "CAMPAIGN_CLICKS_MEASURE",
   "CAMPAIGN_CONVERSIONS_MEASURE",
   "CAMPAIGN_IMPRESSIONS_MEASURE",
   "CPA_CLICKS_MEASURE",
   "CPA_CONVERSIONS_MEASURE",
   "CPA_IMPRESSIONS_MEASURE",
   "CPA_REVENUE_MEASURE",
   "CPC_CONVERSIONS_MEASURE",
   "CPC_IMPRESSIONS_MEASURE",
   "CPC_REVENUE_MEASURE",
   "CPL_CONVERSIONS_MEASURE",
   "CPL_IMPRESSIONS_MEASURE",
   "CPL_REVENUE_MEASURE",
   "TOTAL_GROSS_REVENUE_MEASURE",
   "LAST_POSITION_ANSWERS_MEASURE",
   "TOTAL_NET_REVENUE_MEASURE",
   "PREPING_SCORE_1_PRIMARY_VISITS",
   "PREPING_SCORE_2_PRIMARY_VISITS",
   "PREPING_SCORE_3_PRIMARY_VISITS",
   "PREPING_SCORE_4_PRIMARY_VISITS",
   "PREPING_SCORE_5_PRIMARY_VISITS",
   "PRIMARY_GROSS_REVENUE_MEASURE",
   "QUESTIONS_ANSWERED_MEASURE",
   "QUESTIONS_IMPRESSED_MEASURE",
   "QUESTIONS_IMPRESSED_FOR_POSITION_RATE_MEASURE",
   "ZAN_SECONDARY_END_OF_PLACEMENT_VISITS_MEASURE",
   "QUESTIONS_ANSWERED_FOR_POSITION_RATE_MEASURE",
   "ZAN_SECONDARY_PLACEMENT_VISITS_MEASURE",
   "SECONDARY_NET_REVENUE_MEASURE"]

end ExtractInferenceData

namespace TrainingScript

/-- Target column name declared in sagemaker/training_script.py. -/
def TARGET : String :=
  "IPQS_DEVICE_FP_FRAUD_SCORE"

/-- Column list BOOLEAN_FEATURES declared in sagemaker/training_script.py. -/
def BOOLEAN_FEATURES : List String :=
  ["IP_API_HOSTING",
   "IP_API_MOBILE",
   "IP_API_PROXY"]

/-- Column list CATEGORICAL_FEATURES declared in sagemaker/training_script.py. -/
def CATEGORICAL_FEATURES : List String :=
  ["IP_API_CITY",
   "IP_API_COUNTRY",
   "IP_API_COUNTRY_CODE",
   "IP_API_ORG",
   "IP_API_REGION",
   "IP_API_STATUS",
   "IP_API_TIMEZONE",
   "BROWSERNAME",
   "BROWSERVERSION",
   "DEVICECATEGORY",
   "DEVICETYPE",
   "OPERATINGSYSTEM",
   "OPERATINGSYSTEMVERSION",
   "PROPERTY_NAME",
   "PUBLISHER_NAME",
   "UTM_CONTENT",
   "UTM_TERM",
   "UTM_MEDIUM",
   "UTM_SOURCE",
   "VISITOR_TYPE",
   "DOMAIN",
   "STATE",
   "EMAIL_VERIFICATION_RESPONSE"]

/-- Column list NUMERIC_FEATURES declared in sagemaker/training_script.py. -/
def NUMERIC_FEATURES : List String :=
  ["IP_API_LATITUDE",
   "IP_API_LONGITUDE",
   "VISIT_COUNT_FORM_COMPLETED_MEASURE",
   "VISIT_COUNT_FORM_STARTED_MEASURE",
   "VISIT_COUNT_VISIT_TO_PAGE_1_MEASURE",
   "VISIT_COUNT_PAGE_1_TO_PAGE_2_MEASURE",
   "VISIT_COUNT_PAGE_2_TO_PAGE_3_MEASURE",
   "SECONDS_SPENT_FORM_MEASURE",
   "SECONDS_SPENT_FORM_COMPLETE_MEASURE",
   "SECONDS_SPENT_PAGE_1_TO_2_MEASURE",
   "SECONDS_SPENT_PAGE_2_TO_3_MEASURE",
   "SECONDS_SPENT_VISIT_TO_PAGE_1_MEASURE",
   "SECONDS_SPENT_ZAN_PRIMARY_MEASURE",
   "SECONDS_SPENT_ZAN_PRIMARY_COMPLETE_MEASURE",
   "SECONDS_SPENT_ZAN_PRIMARY_INCOMPLETE_MEASURE",
   "VISIT_COUNT_ZAN_COMPLETED_LESS_THAN_7_SECONDS_MEASURE",
   "VISIT_COUNT_ZAN_PRIMARY_COMPLETE_MEASURE",
   "VISIT_COUNT_ZAN_PRIMARY_LOAD_MEASURE",
   "VISIT_COUNT_ZAN_SPENT_MORE_THAN_5_MINS_MEASURE",
   "LTV_PIXEL_CAMPAIGN_CLICKS_MEASURE",
   "LTV_PIXEL_CAMPAIGN_IMPRESSIONS_MEASURE",
   "LTV_PIXEL_PURCHASE_COUNT_MEASURE",
   "LTV_PIXEL_REVENUE_MEASURE",
   "LTV_PIXEL_ADVERTISER_COST_MEASURE",
   "FICTITIOUS_CHARACTERS_NAME_MEASURE",
   "FLAGGED_ADDRESS_MEASURE",
   "FLAGGED_NAME_MEASURE",
   "FNLN_EMAIL_STRING_MEASURE",
   "IPQS_FLAGGED_LOCATION_MEASURE",
   "MISSING_ADDRESS_NUMBER_MEASURE",
   "MISSING_STREET_TYPE_MEASURE",
   "VISITS_WITH_PII_COMPLETE_VISITS",
   "RECYCLED_IP_ADDRESS_MEASURE",
   "SINGLE_LETTER_STRING_NAME_MEASURE",
   "THREE_LETTER_STRING_NAME_MEASURE",
   "TWO_LETTER_STRING_NAME_MEASURE",
   "THREE_LETTER_STRING_LEFT_RIGHT_NAME_MEASURE",
   "VULGAR_WORDS_NAME_MEASURE",
   "VISIT_COUNT_ZAN_PRIMARY_INCOMPLETE_MEASURE",
   "POSITION_1_ANSWERS_MEASURE",
   "CAMPAIGN_CLICKS_MEASURE",
   "CAMPAIGN_CONVERSIONS_MEASURE",
   "CAMPAIGN_IMPRESSIONS_MEASURE",
   "CPA_CLICKS_MEASURE",
   "CPA_CONVERSIONS_MEASURE",
   "CPA_IMPRESSIONS_MEASURE",
   "CPA_REVENUE_MEASURE",
   "CPC_CONVERSIONS_MEASURE",
   "CPC_IMPRESSIONS_MEASURE",
   "CPC_REVENUE_MEASURE",
   "CPL_CONVERSIONS_MEASURE",
   "CPL_IMPRESSIONS_MEASURE",
   "CPL_REVENUE_MEASURE",
   "TOTAL_GROSS_REVENUE_MEASURE",
   "LAST_POSITION_ANSWERS_MEASURE",
   "TOTAL_NET_REVENUE_MEASURE",
   "PREPING_SCORE_1_PRIMARY_VISITS",
   "PREPING_SCORE_2_PRIMARY_VISITS",
   "PREPING_SCORE_3_PRIMARY_VISITS",
   "PREPING_SCORE_4_PRIMARY_VISITS",
   "PREPING_SCORE_5_PRIMARY_VISITS",
   "PRIMARY_GROSS_REVENUE_MEASURE",
   "QUESTIONS_ANSWERED_MEASURE",
   "QUESTIONS_IMPRESSED_MEASURE",
   "QUESTIONS_IMPRESSED_FOR_POSITION_RATE_MEASURE",
   "ZAN_SECONDARY_END_OF_PLACEMENT_VISITS_MEASURE",
   "QUESTIONS_ANSWERED_FOR_POSITION_RATE_MEASURE",
   "ZAN_SECONDARY_PLACEMENT_VISITS_MEASURE",
   "SECONDARY_NET_REVENUE_MEASURE"]

end TrainingScript

namespace InferenceScript

/-- Column list BOOLEAN_FEATURES declared in sagemaker/inference.py. -/
def BOOLEAN_FEATURES : List String :=
  ["IP_API_HOSTING",
   "IP_API_MOBILE",
   "IP_API_PROXY"]

/-- Column list CATEGORICAL_FEATURES declared in sagemaker/inference.py. -/
def CATEGORICAL_FEATURES : List String :=
  ["IP_API_CITY",
   "IP_API_COUNTRY",
   "IP_API_COUNTRY_CODE",
   "IP_API_ORG",
   "IP_API_REGION",
   "IP_API_STATUS",
   "IP_API_TIMEZONE",
   "BROWSERNAME",
   "BROWSERVERSION",
   "DEVICECATEGORY",
   "DEVICETYPE",
   "OPERATINGSYSTEM",
   "OPERATINGSYSTEMVERSION",
   "PROPERTY_NAME",
   "PUBLISHER_NAME",
   "UTM_CONTENT",
   "UTM_TERM",
   "UTM_MEDIUM",
   "UTM_SOURCE",
   "VISITOR_TYPE",
   "DOMAIN",
   "STATE",
   "EMAIL_VERIFICATION_RESPONSE"]

/-- Column list NUMERIC_FEATURES declared in sagemaker/inference.py. -/
def NUMERIC_FEATURES : List String :=
  ["IP_API_LATITUDE",
   "IP_API_LONGITUDE",
   "VISIT_COUNT_FORM_COMPLETED_MEASURE",
   "VISIT_COUNT_FORM_STARTED_MEASURE",
   "VISIT_COUNT_VISIT_TO_PAGE_1_MEASURE",
   "VISIT_COUNT_PAGE_1_TO_PAGE_2_MEASURE",
   "VISIT_COUNT_PAGE_2_TO_PAGE_3_MEASURE",
   "SECONDS_SPENT_FORM_MEASURE",
   "SECONDS_SPENT_FORM_COMPLETE_MEASURE",
   "SECONDS_SPENT_PAGE_1_TO_2_MEASURE",
   "SECONDS_SPENT_PAGE_2_TO_3_MEASURE",
   "SECONDS_SPENT_VISIT_TO_PAGE_1_MEASURE",
   "SECONDS_SPENT_ZAN_PRIMARY_MEASURE",
   "SECONDS_SPENT_ZAN_PRIMARY_COMPLETE_MEASURE",
   "SECONDS_SPENT_ZAN_PRIMARY_INCOMPLETE_MEASURE",
   "VISIT_COUNT_ZAN_COMPLETED_LESS_THAN_7_SECONDS_MEASURE",
   "VISIT_COUNT_ZAN_PRIMARY_COMPLETE_MEASURE",
   "VISIT_COUNT_ZAN_PRIMARY_LOAD_MEASURE",
   "VISIT_COUNT_ZAN_SPENT_MORE_THAN_5_MINS_MEASURE",
   "LTV_PIXEL_CAMPAIGN_CLICKS_MEASURE",
   "LTV_PIXEL_CAMPAIGN_IMPRESSIONS_MEASURE",
   "LTV_PIXEL_PURCHASE_COUNT_MEASURE",
   "LTV_PIXEL_REVENUE_MEASURE",
   "LTV_PIXEL_ADVERTISER_COST_MEASURE",
   "FICTITIOUS_CHARACTERS_NAME_MEASURE",
   "FLAGGED_ADDRESS_MEASURE",
   "FLAGGED_NAME_MEASURE",
   "FNLN_EMAIL_STRING_MEASURE",
   "IPQS_FLAGGED_LOCATION_MEASURE",
   "MISSING_ADDRESS_NUMBER_MEASURE",
   "MISSING_STREET_TYPE_MEASURE",
   "VISITS_WITH_PII_COMPLETE_VISITS",
   "RECYCLED_IP_ADDRESS_MEASURE",
   "SINGLE_LETTER_STRING_NAME_MEASURE",
   "THREE_LETTER_STRING_NAME_MEASURE",
   "TWO_LETTER_STRING_NAME_MEASURE",
   "THREE_LETTER_STRING_LEFT_RIGHT_NAME_MEASURE",
   "VULGAR_WORDS_NAME_MEASURE",
   "VISIT_COUNT_ZAN_PRIMARY_INCOMPLETE_MEASURE",
   "POSITION_1_ANSWERS_MEASURE",
   "CAMPAIGN_CLICKS_MEASURE",
   "CAMPAIGN_CONVERSIONS_MEASURE",
   "CAMPAIGN_IMPRESSIONS_MEASURE",
   "CPA_CLICKS_MEASURE",
   "CPA_CONVERSIONS_MEASURE",
   "CPA_IMPRESSIONS_MEASURE",
   "CPA_REVENUE_MEASURE",
   "CPC_CONVERSIONS_MEASURE",
   "CPC_IMPRESSIONS_MEASURE",
   "CPC_REVENUE_MEASURE",
   "CPL_CONVERSIONS_MEASURE",
   "CPL_IMPRESSIONS_MEASURE",
   "CPL_REVENUE_MEASURE",
   "TOTAL_GROSS_REVENUE_MEASURE",
   "LAST_POSITION_ANSWERS_MEASURE",
   "TOTAL_NET_REVENUE_MEASURE",
   "PREPING_SCORE_1_PRIMARY_VISITS",
   "PREPING_SCORE_2_PRIMARY_VISITS",
   "PREPING_SCORE_3_PRIMARY_VISITS",
   "PREPING_SCORE_4_PRIMARY_VISITS",
   "PREPING_SCORE_5_PRIMARY_VISITS",
   "PRIMARY_GROSS_REVENUE_MEASURE",
   "QUESTIONS_ANSWERED_MEASURE",
   "QUESTIONS_IMPRESSED_MEASURE",
   "QUESTIONS_IMPRESSED_FOR_POSITION_RATE_MEASURE",
   "ZAN_SECONDARY_END_OF_PLACEMENT_VISITS_MEASURE",
   "QUESTIONS_ANSWERED_FOR_POSITION_RATE_MEASURE",
   "ZAN_SECONDARY_PLACEMENT_VISITS_MEASURE",
   "SECONDARY_NET_REVENUE_MEASURE"]

/-- Concatenated raw feature order ALL_RAW_FEATURES declared in sagemaker/inference.py. -/
def ALL_RAW_FEATURES : List String :=
  BOOLEAN_FEATURES ++ CATEGORICAL_FEATURES ++ NUMERIC_FEATURES

end InferenceScript


/-- Lexicographic comparison of two character lists by code point, the order in
which numpy sorts the distinct string values of a column during encoder fit. -/
def lexLeChars : List Char → List Char → Bool
  | [], _ => true
  | c :: cs, d :: ds =>
    if c.toNat < d.toNat then true
    else if d.toNat < c.toNat then false
    else lexLeChars cs ds
  | _ :: _, [] => false

/-- Lexicographic order on strings by code point. -/
def strLeb (a b : String) : Bool :=
  lexLeChars a.data b.data

/-- Propositional form of the lexicographic string order. -/
def strLe (a b : String) : Prop :=
  strLeb a b = true

instance : DecidableRel strLe :=
  fun a b => inferInstanceAs (Decidable (strLeb a b = true))

theorem lexLeChars_total (a b : List Char) :
    lexLeChars a b = true ∨ lexLeChars b a = true := by
  induction a generalizing b with
  | nil => left; rfl
  | cons c cs ih =>
    cases b with
    | nil => right; rfl
    | cons d ds =>
      by_cases hcd : c.toNat < d.toNat
      · left; simp [lexLeChars, hcd]
      · by_cases hdc : d.toNat < c.toNat
        · right; simp [lexLeChars, hdc]
        · rcases ih ds with h | h
          · left; simp [lexLeChars, hcd, hdc, h]
          · right; simp [lexLeChars, hcd, hdc, h]

theorem lexLeChars_trans (a b c : List Char) (hab : lexLeChars a b = true)
    (hbc : lexLeChars b c = true) : lexLeChars a c = true := by
  induction a generalizing b c with
  | nil => rfl
  | cons x xs ih =>
    cases b with
    | nil => simp [lexLeChars] at hab
    | cons y ys =>
      cases c with
      | nil => simp [lexLeChars] at hbc
      | cons z zs =>
        simp only [lexLeChars] at hab hbc ⊢
        by_cases hxy : x.toNat < y.toNat
        · by_cases hyz : y.toNat < z.toNat
          · simp [Nat.lt_trans hxy hyz]
          · by_cases hzy : z.toNat < y.toNat
            · simp [hyz, hzy] at hbc
            · have hyz2 : y.toNat = z.toNat := Nat.le_antisymm (Nat.le_of_not_lt hzy) (Nat.le_of_not_lt hyz)
              simp [hyz2 ▸ hxy]
        · by_cases hyx : y.toNat < x.toNat
          · simp [hxy, hyx] at hab
          · have hxy2 : x.toNat = y.toNat := Nat.le_antisymm (Nat.le_of_not_lt hyx) (Nat.le_of_not_lt hxy)
            by_cases hyz : y.toNat < z.toNat
            · simp [hxy2 ▸ hyz]
            · by_cases hzy : z.toNat < y.toNat
              · simp [hyz, hzy] at hbc
              · simp only [hxy, hyx, if_false, if_neg] at hab
                simp only [hyz, hzy, if_false, if_neg] at hbc
                have hxz : ¬ x.toNat < z.toNat := hxy2 ▸ hyz
                have hzx : ¬ z.toNat < x.toNat := hxy2 ▸ hzy
                simp [hxz, hzx, ih ys zs hab hbc]

instance : IsTotal String strLe :=
  ⟨fun a b => lexLeChars_total a.data b.data⟩

instance : IsTrans String strLe :=
  ⟨fun a b c => lexLeChars_trans a.data b.data c.data⟩

/-- Category list learned for one column by OrdinalEncoder.fit in
prepare_features of sagemaker/training_script.py: the distinct observed string
values of the column, in sorted (lexicographic) order. This models the sklearn
OrdinalEncoder with categories set to auto, whose fitted categories are the
sorted unique values of the column. -/
def fitColumn (vs : List String) : List String :=
  List.insertionSort strLe vs.dedup

/-- Code assigned to one string by a fitted OrdinalEncoder configured with
handle_unknown set to use_encoded_value and unknown_value -1, as constructed in
prepare_features of sagemaker/training_script.py: the index of the value in the
learned category list, or -1 when the value was not observed at fit time. -/
def encodeValue (cats : List String) (v : String) : Int :=
  if v ∈ cats then (cats.indexOf v : Int) else -1

/-- Encoder transform applied to one column of string values. -/
def transformColumn (cats : List String) (vs : List String) : List Int :=
  vs.map (encodeValue cats)

/-- Inverse transform of one code by a fitted OrdinalEncoder: the category at
that index, or nothing for the unknown-value sentinel. -/
def decodeValue (cats : List String) (code : Int) : Option String :=
  if code < 0 then none else cats.get? code.toNat

/-- Encoder transform applied columnwise to a whole corpus: each fitted
category list is paired positionally with its column. -/
def transformEncoder (enc : List (List String)) (cols : List (List String)) :
    List (List Int) :=
  List.zipWith transformColumn enc cols

theorem mem_fitColumn {v : String} {vs : List String} :
    v ∈ fitColumn vs ↔ v ∈ vs :=
  ((List.perm_insertionSort strLe vs.dedup).mem_iff).trans List.mem_dedup

theorem nodup_fitColumn (vs : List String) : (fitColumn vs).Nodup :=
  (List.perm_insertionSort strLe vs.dedup).nodup_iff.mpr (List.nodup_dedup vs)

theorem sorted_fitColumn (vs : List String) : List.Sorted strLe (fitColumn vs) :=
  List.sorted_insertionSort strLe vs.dedup

/-- Artifacts written by save_model in sagemaker/training_script.py and read
back by model_fn in sagemaker/inference.py. The pickled encoder is modelled by
its state, the per-column category lists; the feature-name JSON file by the
ordered name list. -/
structure ModelArtifacts where
  encoder_pkl : List (List String)
  feature_names_json : List String
deriving DecidableEq, Repr

/-- Persistence step of save_model in sagemaker/training_script.py: pickle of
the fitted encoder plus the JSON dump of the ordered feature names. The
serialization formats themselves are library calls and are modelled as faithful
storage of the written state. -/
def save_model (encoder : List (List String)) (feature_names : List String) :
    ModelArtifacts :=
  { encoder_pkl := encoder, feature_names_json := feature_names }

/-- Loading step of model_fn in sagemaker/inference.py: unpickle the encoder
and parse the feature-name JSON from the artifact bundle. -/
def model_fn (a : ModelArtifacts) : List (List String) × List String :=
  (a.encoder_pkl, a.feature_names_json)

example : fitColumn ["US", "CA", "US"] = ["CA", "US"] := by decide
example : transformColumn (fitColumn ["US", "CA", "US"]) ["US", "CA", "MX"] = [1, 0, -1] := by decide

/-- One parsed input row: an ordered association of column names to raw
values, the order being the column order of the row. -/
abbrev Row : Type := List (String × Value)

/-- Ordered column names of a row. -/
abbrev rowCols (r : Row) : List String :=
  r.map Prod.fst

/-- Value of the first column of the row carrying the given label; models
selection of a column by label in a pandas frame. -/
def lookupCol (c : String) : Row → Option Value
  | [] => none
  | (n, v) :: rest => if n = c then some v else lookupCol c rest

/-- Sequencing of a fallible per-element computation over a list: the whole
result is produced only when every element succeeds. Models a frame-level
operation that raises on the first failing column. -/
def collectSome (f : α → Option β) : List α → Option (List β)
  | [] => some []
  | a :: as => (f a).bind fun b => (collectSome f as).map (fun bs => b :: bs)

/-- Availability filter used by prepare_features in
sagemaker/training_script.py and predict_fn in sagemaker/inference.py: the
declared feature list restricted to the columns present in the input, keeping
the declared order. -/
def filter_available (features avail : List String) : List String :=
  features.filter (fun c => decide (c ∈ avail))

/-- Column selection by label list, keeping the order of the labels; models
selecting a sublist of columns of a frame. -/
def select_row (cs : List String) (r : Row) : Row :=
  cs.filterMap (fun c => (lookupCol c r).map (fun v => (c, v)))

/-- String rendering applied to a cell before encoding; models the astype(str)
conversion in prepare_features and predict_fn. Missing cells and nulls render
the way pandas renders them, which is irrelevant to the claims proved here. -/
def value_as_str : Option Value → String
  | some (Value.str s) => s
  | some (Value.bool b) => if b then "True" else "False"
  | some (Value.num q) => toString q
  | some Value.null => "nan"
  | none => "nan"

/-- Encoded categorical block built by prepare_features and predict_fn: one
column per available categorical column, renamed with the _ENCODED suffix,
holding the ordinal code of the rendered cell. The fitted per-column category
lists are abstracted as a map from column name to category list. -/
def encode_row (enc : String → List String) (catCols : List String) (r : Row) : Row :=
  catCols.map (fun c =>
    (c ++ "_ENCODED", Value.num (encodeValue (enc c) (value_as_str (lookupCol c r)))))

/-- Feature assembly of prepare_features in sagemaker/training_script.py and of
predict_fn in sagemaker/inference.py: concatenation of the boolean block, the
encoded categorical block and the numeric block, each filtered to the available
columns of the input. The three declared lists are parameters so that the
definition covers both scripts. -/
def assemble_row (boolF catF numF : List String) (enc : String → List String)
    (avail : List String) (r : Row) : Row :=
  select_row (filter_available boolF avail) r
    ++ encode_row enc (filter_available catF avail) r
    ++ select_row (filter_available numF avail) r

/-- Column order produced by feature assembly for a given set of available
input columns. -/
def assembled_names (boolF catF numF : List String) (avail : List String) :
    List String :=
  filter_available boolF avail
    ++ (filter_available catF avail).map (fun c => c ++ "_ENCODED")
    ++ filter_available numF avail

/-- Reindexing of a row to a fixed column order; models the selection of the
persisted feature-name list from the assembled frame in predict_fn. The result
is nothing when a requested column is absent, which pandas reports by raising. -/
def reindex_row (order : List String) (r : Row) : Option Row :=
  collectSome (fun n => (lookupCol n r).map (fun v => (n, v))) order

/-- Batch prediction of predict_fn in sagemaker/inference.py: every input row
is assembled, reindexed to the persisted feature-name order and scored by the
model, which is abstracted as a function from a feature row to a rational
score. A reindex failure on any row makes the whole call fail with no scores. -/
def predict_fn (m : Row → ℚ) (enc : String → List String)
    (feature_names : List String) (avail : List String)
    (input_data : List Row) : Option (List ℚ) :=
  (collectSome (fun r =>
      reindex_row feature_names
        (assemble_row InferenceScript.BOOLEAN_FEATURES
          InferenceScript.CATEGORICAL_FEATURES InferenceScript.NUMERIC_FEATURES
          enc avail r)) input_data).map (fun rows => rows.map m)

theorem lookupCol_eq_none {c : String} {r : Row} :
    lookupCol c r = none ↔ c ∉ rowCols r := by
  induction r with
  | nil => simp [lookupCol]
  | cons p rest ih =>
    obtain ⟨n, v⟩ := p
    by_cases h : n = c
    · subst h
      simp [lookupCol]
    · have h2 : ¬ c = n := fun hc => h hc.symm
      simp [lookupCol, h, h2, ih]

theorem lookupCol_isSome {c : String} {r : Row} :
    (lookupCol c r).isSome ↔ c ∈ rowCols r := by
  rw [Option.isSome_iff_ne_none]
  exact not_iff_not.mpr lookupCol_eq_none |>.trans not_not

theorem rowCols_select_row {cs : List String} {r : Row}
    (h : ∀ c ∈ cs, c ∈ rowCols r) : rowCols (select_row cs r) = cs := by
  induction cs with
  | nil => rfl
  | cons c rest ih =>
    have hc : (lookupCol c r).isSome := lookupCol_isSome.mpr (h c (by simp))
    obtain ⟨v, hv⟩ := Option.isSome_iff_exists.mp hc
    have hrest : rowCols (select_row rest r) = rest :=
      ih (fun d hd => h d (by simp [hd]))
    simp [select_row, rowCols, hv] at hrest ⊢
    exact hrest

theorem rowCols_encode_row (enc : String → List String) (catCols : List String)
    (r : Row) :
    rowCols (encode_row enc catCols r) = catCols.map (fun c => c ++ "_ENCODED") := by
  simp [encode_row, List.map_map]

theorem rowCols_append (a b : Row) : rowCols (a ++ b) = rowCols a ++ rowCols b :=
  List.map_append Prod.fst a b

theorem mem_filter_available {c : String} {features avail : List String} :
    c ∈ filter_available features avail ↔ c ∈ features ∧ c ∈ avail := by
  simp [filter_available]

theorem rowCols_assemble_row (boolF catF numF : List String)
    (enc : String → List String) (avail : List String) (r : Row)
    (h : rowCols r = avail) :
    rowCols (assemble_row boolF catF numF enc avail r)
      = assembled_names boolF catF numF avail := by
  have hb : ∀ c ∈ filter_available boolF avail, c ∈ rowCols r := by
    intro c hc
    exact h ▸ (mem_filter_available.mp hc).2
  have hn : ∀ c ∈ filter_available numF avail, c ∈ rowCols r := by
    intro c hc
    exact h ▸ (mem_filter_available.mp hc).2
  simp [assemble_row, assembled_names, rowCols_append,
    rowCols_select_row hb, rowCols_select_row hn, rowCols_encode_row]

theorem collectSome_eq_none {f : α → Option β} {l : List α} :
    collectSome f l = none ↔ ∃ a ∈ l, f a = none := by
  induction l with
  | nil => simp [collectSome]
  | cons a as ih =>
    cases hfa : f a with
    | none => simp [collectSome, hfa]
    | some b => simp [collectSome, hfa, ih]

theorem collectSome_length {f : α → Option β} :
    ∀ {l : List α} {out : List β}, collectSome f l = some out → out.length = l.length := by
  intro l
  induction l with
  | nil =>
    intro out h
    simp [collectSome] at h
    simp [← h]
  | cons a as ih =>
    intro out h
    cases hfa : f a with
    | none => simp [collectSome, hfa] at h
    | some b =>
      simp only [collectSome, hfa, Option.some_bind, Option.map_eq_some'] at h
      obtain ⟨bs, hbs, rfl⟩ := h
      simp [ih hbs]

theorem collectSome_congr {f g : α → Option β} :
    ∀ {l : List α}, (∀ a ∈ l, f a = g a) → collectSome f l = collectSome g l := by
  intro l
  induction l with
  | nil => intro _; rfl
  | cons a as ih =>
    intro h
    have h1 : f a = g a := h a (List.mem_cons_self a as)
    have h2 : collectSome f as = collectSome g as :=
      ih fun x hx => h x (List.mem_cons_of_mem a hx)
    simp only [collectSome, h1, h2]

theorem reindex_row_eq_none {order : List String} {r : Row} :
    reindex_row order r = none ↔ ∃ n ∈ order, lookupCol n r = none := by
  simp [reindex_row, collectSome_eq_none]

theorem reindex_row_cols {order : List String} :
    ∀ {r r' : Row}, reindex_row order r = some r' → rowCols r' = order := by
  induction order with
  | nil =>
    intro r r' h
    simp [reindex_row, collectSome] at h
    simp [← h]
  | cons n ns ih =>
    intro r r' h
    cases hl : lookupCol n r with
    | none => simp [reindex_row, collectSome, hl] at h
    | some v =>
      simp only [reindex_row, collectSome, hl, Option.map_some', Option.some_bind,
        Option.map_eq_some'] at h
      obtain ⟨rest, hrest, rfl⟩ := h
      simpa using ih (r := r) hrest

theorem reindex_row_lookup_mem {order : List String} :
    ∀ {r r' : Row}, reindex_row order r = some r' →
      ∀ n ∈ order, lookupCol n r' = lookupCol n r := by
  induction order with
  | nil =>
    intro r r' _ n hn
    simp at hn
  | cons m ms ih =>
    intro r r' h n hn
    cases hl : lookupCol m r with
    | none => simp [reindex_row, collectSome, hl] at h
    | some v =>
      simp only [reindex_row, collectSome, hl, Option.map_some', Option.some_bind,
        Option.map_eq_some'] at h
      obtain ⟨rest, hrest, rfl⟩ := h
      by_cases hm : m = n
      · subst hm
        simp [lookupCol, hl]
      · have hn2 : n ∈ ms := by
          rcases List.mem_cons.mp hn with h1 | h1
          · exact absurd h1.symm hm
          · exact h1
        simp [lookupCol, hm, ih (r := r) hrest n hn2]

theorem reindex_row_idem {order : List String} {r r' : Row}
    (h : reindex_row order r = some r') : reindex_row order r' = some r' := by
  have hcongr : reindex_row order r' = reindex_row order r :=
    collectSome_congr (fun n hn => by rw [reindex_row_lookup_mem h n hn])
  rw [hcongr, h]

/-- Row-index column attached by main in
glue_scripts/load_scores_to_snowflake.py via monotonically_increasing_id,
modelled under the row-order-preserving single-partition read that the
positional-alignment design assumes: the rows are enumerated from zero in file
order. -/
def add_row_idx (rows : List α) : List (ℕ × α) :=
  rows.enum

/-- Inner join of the id file and the prediction file on the attached row
index, as performed by main in glue_scripts/load_scores_to_snowflake.py: every
pair of rows with equal index contributes one output row. -/
def join_on_idx (ids : List (ℕ × α)) (preds : List (ℕ × β)) : List (α × β) :=
  ids.flatMap (fun p => preds.filterMap
    (fun q => if q.1 = p.1 then some (p.2, q.2) else none))

theorem flatMap_congr {f g : α → List β} :
    ∀ {l : List α}, (∀ a ∈ l, f a = g a) → l.flatMap f = l.flatMap g := by
  intro l
  induction l with
  | nil => intro _; rfl
  | cons a as ih =>
    intro h
    have h1 : f a = g a := h a (List.mem_cons_self a as)
    have h2 : as.flatMap f = as.flatMap g :=
      ih fun x hx => h x (List.mem_cons_of_mem a hx)
    simp only [List.flatMap_cons, h1, h2]

theorem enumFrom_le_fst {n : ℕ} {l : List α} {q : ℕ × α} (h : q ∈ List.enumFrom n l) :
    n ≤ q.1 := by
  obtain ⟨i, x⟩ := q
  exact (List.mem_enumFrom h).1

theorem join_on_idx_enumFrom :
    ∀ (n : ℕ) (xs : List α) (ys : List β), xs.length = ys.length →
      join_on_idx (List.enumFrom n xs) (List.enumFrom n ys) = xs.zip ys := by
  intro n xs
  induction xs generalizing n with
  | nil =>
    intro ys h
    cases ys with
    | nil => rfl
    | cons y ys => simp at h
  | cons x xs ih =>
    intro ys h
    cases ys with
    | nil => simp at h
    | cons y ys =>
      have hlen : xs.length = ys.length := by simpa using h
      have hhead : (List.enumFrom n (y :: ys)).filterMap
          (fun q => if q.1 = n then some (x, q.2) else none) = [(x, y)] := by
        simp only [List.enumFrom, List.filterMap_cons, if_pos rfl]
        have : (List.enumFrom (n + 1) ys).filterMap
            (fun q => if q.1 = n then some (x, q.2) else none) = [] := by
          refine List.filterMap_eq_nil_iff.mpr (fun q hq => ?_)
          have := enumFrom_le_fst hq
          exact if_neg (by omega)
        simp [this]
      have htail : (List.enumFrom (n + 1) xs).flatMap (fun p =>
            (List.enumFrom n (y :: ys)).filterMap
              (fun q => if q.1 = p.1 then some (p.2, q.2) else none))
          = join_on_idx (List.enumFrom (n + 1) xs) (List.enumFrom (n + 1) ys) := by
        refine flatMap_congr (fun p hp => ?_)
        have hple := enumFrom_le_fst hp
        simp only [List.enumFrom, List.filterMap_cons]
        rw [if_neg (by omega)]
      calc join_on_idx (List.enumFrom n (x :: xs)) (List.enumFrom n (y :: ys))
          = (List.enumFrom n (y :: ys)).filterMap
              (fun q => if q.1 = n then some (x, q.2) else none)
            ++ (List.enumFrom (n + 1) xs).flatMap (fun p =>
              (List.enumFrom n (y :: ys)).filterMap
                (fun q => if q.1 = p.1 then some (p.2, q.2) else none)) := by
            simp [join_on_idx, List.enumFrom]
        _ = [(x, y)] ++ join_on_idx (List.enumFrom (n + 1) xs) (List.enumFrom (n + 1) ys) := by
            rw [hhead, htail]
        _ = (x, y) :: xs.zip ys := by rw [ih (n + 1) ys hlen]; rfl
        _ = (x :: xs).zip (y :: ys) := rfl

/-- One warehouse row as seen by the WHERE clause of build_preprocessing_sql:
its target value and its creation day, with days counted as integers. -/
structure SourceRow where
  target : Value
  created_at : Int
deriving DecidableEq, Repr

/-- Eligibility filter of build_preprocessing_sql in
glue_scripts/extract_training_data.py: the target is non-null and the creation
day lies within the caller-supplied day-count window ending today. -/
def eligible (current_date days_limit : Int) (r : SourceRow) : Bool :=
  decide (r.target ≠ Value.null) && decide (current_date - days_limit ≤ r.created_at)

/-- Split label of build_preprocessing_sql: TEST when the split key is below
the test fraction, TRAIN otherwise. -/
def data_split (split_key test_size : ℚ) : String :=
  if split_key < test_size then "TEST" else "TRAIN"

/-- Default test fraction of build_preprocessing_sql. -/
def default_test_size : ℚ := 0.20

/-- Default random seed of build_preprocessing_sql. -/
def default_random_seed : Int := 42

/-- Split label assigned to one row, with the warehouse-side seeded RANDOM
draw abstracted as a function of the seed and the row. The draw itself is
computed by the warehouse, not by this repository; following the spec it is
modelled as a deterministic per-row value keyed by the seed. -/
def split_label (draw : Int → SourceRow → ℚ) (seed : Int) (test_size : ℚ)
    (r : SourceRow) : String :=
  data_split (draw seed r) test_size

/-- Training-eligible rows of the extraction query. -/
def eligible_rows (current_date days_limit : Int) (rows : List SourceRow) :
    List SourceRow :=
  rows.filter (eligible current_date days_limit)

/-- Rows labelled TEST by the extraction query. -/
def test_set (draw : Int → SourceRow → ℚ) (seed : Int) (test_size : ℚ)
    (current_date days_limit : Int) (rows : List SourceRow) : List SourceRow :=
  (eligible_rows current_date days_limit rows).filter
    (fun r => split_label draw seed test_size r = "TEST")

/-- Rows labelled TRAIN by the extraction query. -/
def train_set (draw : Int → SourceRow → ℚ) (seed : Int) (test_size : ℚ)
    (current_date days_limit : Int) (rows : List SourceRow) : List SourceRow :=
  (eligible_rows current_date days_limit rows).filter
    (fun r => split_label draw seed test_size r = "TRAIN")

theorem data_split_eq_test {k f : ℚ} : data_split k f = "TEST" ↔ k < f := by
  unfold data_split
  by_cases h : k < f
  · simp [h]
  · rw [if_neg h]
    simp only [h, iff_false]
    decide

theorem data_split_eq_train {k f : ℚ} : data_split k f = "TRAIN" ↔ f ≤ k := by
  unfold data_split
  by_cases h : k < f
  · rw [if_pos h]
    constructor
    · intro hh
      exact absurd hh (by decide)
    · intro hh
      exact absurd h (not_lt.mpr hh)
  · rw [if_neg h]
    simp [le_of_not_lt h]

theorem length_filter_add_length_filter_not (p : α → Bool) (l : List α) :
    (l.filter p).length + (l.filter (fun a => ! p a)).length = l.length := by
  induction l with
  | nil => rfl
  | cons a as ih =>
    cases hpa : p a <;> simp [List.filter_cons, hpa, ← ih] <;> omega

/-- Feature Contract declared by one script: the optional target column name
plus the three ordered column lists. The target is optional because not every
script declares one. -/
structure FeatureContract where
  target : Option String
  booleans : List String
  categoricals : List String
  numerics : List String
deriving DecidableEq, Repr

/-- Feature Contract declared by glue_scripts/extract_training_data.py. -/
def ExtractTrainingData.contract : FeatureContract :=
  { target := some ExtractTrainingData.TARGET
    booleans := ExtractTrainingData.BOOLEAN_FEATURES
    categoricals := ExtractTrainingData.CATEGORICAL_FEATURES
    numerics := ExtractTrainingData.NUMERIC_FEATURES }

/-- Feature Contract declared by glue_scripts/extract_inference_data.py. -/
def ExtractInferenceData.contract : FeatureContract :=
  { target := some ExtractInferenceData.TARGET
    booleans := ExtractInferenceData.BOOLEAN_FEATURES
    categoricals := ExtractInferenceData.CATEGORICAL_FEATURES
    numerics := ExtractInferenceData.NUMERIC_FEATURES }

/-- Feature Contract declared by sagemaker/training_script.py. -/
def TrainingScript.contract : FeatureContract :=
  { target := some TrainingScript.TARGET
    booleans := TrainingScript.BOOLEAN_FEATURES
    categoricals := TrainingScript.CATEGORICAL_FEATURES
    numerics := TrainingScript.NUMERIC_FEATURES }

/-- Feature Contract declared by sagemaker/inference.py. The serving script
declares the three feature lists and their concatenation ALL_RAW_FEATURES but
no target column constant, since the target is what it predicts. -/
def InferenceScript.contract : FeatureContract :=
  { target := none
    booleans := InferenceScript.BOOLEAN_FEATURES
    categoricals := InferenceScript.CATEGORICAL_FEATURES
    numerics := InferenceScript.NUMERIC_FEATURES }

/-- One line of a headerless CSV body parsed against a fixed name list; models
a pandas read of one row with the names argument. Cells are kept textual, the
numeric type inference of the reader being irrelevant to the dispatch and
shape properties proved here. -/
def read_csv_row (names : List String) (line : String) : Row :=
  names.zip ((line.splitOn ",").map Value.str)

/-- Headerless CSV body parsed against a fixed name list, one row per line;
models the pandas read_csv call of input_fn with header set to none and the
names argument set to ALL_RAW_FEATURES. -/
def read_csv_noheader (names : List String) (body : String) : List Row :=
  (body.splitOn "\n").map (read_csv_row names)

/-- Request parsing of input_fn in sagemaker/inference.py: a text/csv body is
parsed as headerless CSV with the ALL_RAW_FEATURES column order, an
application/json body is parsed by the JSON library, and any other content
type raises. The JSON parse (json.loads followed by frame construction, for a
record or a list of records) is a library call and is abstracted as a function
argument; the dispatch proved here does not depend on it. -/
def input_fn (parse_json : String → Option (List Row))
    (request_body request_content_type : String) : Option (List Row) :=
  if request_content_type = "text/csv" then
    some (read_csv_noheader InferenceScript.ALL_RAW_FEATURES request_body)
  else if request_content_type = "application/json" then
    parse_json request_body
  else
    none

/-- Response formatting of output_fn in sagemaker/inference.py: newline-joined
scores for a text/csv or star/star accept, a JSON array for an
application/json accept, and an error for anything else. The Python str
rendering of one score is abstracted as a function argument. -/
def output_fn (render : ℚ → String) (prediction : List ℚ) (accept : String) :
    Option String :=
  if accept = "text/csv" ∨ accept = "*/*" then
    some (String.intercalate "\n" (prediction.map render))
  else if accept = "application/json" then
    some ("[" ++ String.intercalate ", " (prediction.map render) ++ "]")
  else
    none

/-- C1: for every raw value and declared column type, the cleaning transform
is a deterministic, total, per-row function satisfying the null-filling rule
table: a boolean column is coerced to integer 1 when the value is true and 0
for anything else including null; a categorical column is coerced to its
textual representation, or the literal MISSING exactly when the value is null,
an empty string being preserved; a numeric column is coerced to its numeric
value, or 0 when null. Both extractor scripts emit the same per-column
cleaning expression text. -/
theorem C1_null_filling_rule_table (v : Value) (s : String) :
    (clean ColType.boolean (Value.bool true) = Value.num 1) ∧
    (v ≠ Value.bool true → clean ColType.boolean v = Value.num 0) ∧
    (clean ColType.categorical Value.null = Value.str "MISSING") ∧
    (clean ColType.categorical (Value.str s) = Value.str s) ∧
    (clean ColType.categorical (Value.str "") = Value.str "") ∧
    (v ≠ Value.null → clean ColType.categorical v = to_varchar v) ∧
    (clean ColType.numeric Value.null = Value.num 0) ∧
    (v ≠ Value.null → clean ColType.numeric v = v) ∧
    (training_bool_expr s = inference_bool_expr s) ∧
    (training_cat_expr s = inference_cat_expr s) ∧
    (training_num_expr s = inference_num_expr s) := by
  refine ⟨by decide, ?_, by decide, ?_, by decide, ?_, by decide, ?_, rfl, rfl, rfl⟩
  · intro h
    cases v with
    | null => decide
    | bool b =>
      cases b with
      | false => decide
      | true => exact absurd rfl h
    | str t => simp [clean, case_when_true, sql_eq_true, coalesce]
    | num q => simp [clean, case_when_true, sql_eq_true, coalesce]
  · simp [clean, to_varchar, coalesce]
  · intro h
    cases v with
    | null => exact absurd rfl h
    | bool b => simp [clean, to_varchar, coalesce]
    | str t => simp [clean, to_varchar, coalesce]
    | num q => simp [clean, to_varchar, coalesce]
  · intro h
    simp [clean, coalesce, h]

/-- Witness for C1 at concrete inputs: a null boolean cell cleans to 0 and a
non-null numeric cell is kept unchanged. -/
theorem C1_null_filling_rule_table_witness :
    clean ColType.boolean Value.null = Value.num 0 ∧
    clean ColType.numeric (Value.num 5) = Value.num 5 :=
  ⟨(C1_null_filling_rule_table Value.null "").2.1 (by decide),
   (C1_null_filling_rule_table (Value.num 5) "").2.2.2.2.2.2.2.1 (by decide)⟩

/-- C2 counterexample: the encoder of the code assigns integer codes by sorted
lexicographic order of the distinct observed values, not by order of first
occurrence; fitting on US, CA, US and applying to US, CA, MX yields the codes
1, 0, -1 and not 0, 1, -1 as the claim states. -/
theorem C2_first_occurrence_counterexample :
    transformColumn (fitColumn ["US", "CA", "US"]) ["US", "CA", "MX"] = [1, 0, -1] ∧
    transformColumn (fitColumn ["US", "CA", "US"]) ["US", "CA", "MX"] ≠ [0, 1, -1] := by
  decide

/-- C2 amended: the fit phase of the encoder assigns each distinct observed
string of a column an integer code equal to its index in the lexicographically
sorted list of distinct observed values, and the apply phase maps every string
observed at fit time to its learned code and every unseen string to the
sentinel code -1. -/
theorem C2_encoder_sorted_distinct_codes (vs : List String) (v : String) :
    List.Sorted strLe (fitColumn vs) ∧
    (fitColumn vs).Nodup ∧
    (v ∈ fitColumn vs ↔ v ∈ vs) ∧
    (v ∈ vs → encodeValue (fitColumn vs) v = ((fitColumn vs).indexOf v : Int) ∧
      (fitColumn vs).get? ((fitColumn vs).indexOf v) = some v) ∧
    (v ∉ vs → encodeValue (fitColumn vs) v = -1) := by
  refine ⟨sorted_fitColumn vs, nodup_fitColumn vs, mem_fitColumn, ?_, ?_⟩
  · intro hv
    have hm : v ∈ fitColumn vs := mem_fitColumn.mpr hv
    have hlt : (fitColumn vs).indexOf v < (fitColumn vs).length :=
      List.indexOf_lt_length.mpr hm
    refine ⟨by simp [encodeValue, hm], ?_⟩
    rw [List.get?_eq_get hlt, List.indexOf_get hlt]
  · intro hv
    exact if_neg (fun hm => hv (mem_fitColumn.mp hm))

/-- Witness for C2 amended at a concrete corpus: a value unseen at fit time is
coded -1. -/
theorem C2_encoder_sorted_distinct_codes_witness :
    encodeValue (fitColumn ["US", "CA", "US"]) "MX" = -1 :=
  (C2_encoder_sorted_distinct_codes ["US", "CA", "US"] "MX").2.2.2.2 (by decide)

/-- C5: reindexing a frame row that is already the result of reindexing to the
persisted feature-name order is a no-op, so applying the ordering step twice
equals applying it once. -/
theorem C5_reindex_idempotent (order : List String) (r r2 : Row)
    (h : reindex_row order r = some r2) :
    reindex_row order r2 = some r2 :=
  reindex_row_idem h

/-- Witness for C5 at a concrete row arriving in a scrambled column order. -/
theorem C5_reindex_idempotent_witness :
    reindex_row ["a", "b"] [("a", Value.num 1), ("b", Value.num 2)] =
      some [("a", Value.num 1), ("b", Value.num 2)] :=
  C5_reindex_idempotent ["a", "b"] [("b", Value.num 2), ("a", Value.num 1)]
    [("a", Value.num 1), ("b", Value.num 2)] (by decide)

/-- C6: decoding the code that a fitted encoder assigns to any string observed
during fit reproduces that original string; strings unseen during fit always
map to -1 under apply; and serializing then deserializing the encoder
preserves the exact value-to-code mapping, so the reloaded encoder agrees with
the original on every input. -/
theorem C6_encoder_decode_and_persistence_roundtrip (vs : List String)
    (v : String) (enc : List (List String)) (fn : List String)
    (cols : List (List String)) :
    (v ∈ vs → decodeValue (fitColumn vs) (encodeValue (fitColumn vs) v) = some v) ∧
    (v ∉ vs → encodeValue (fitColumn vs) v = -1) ∧
    (model_fn (save_model enc fn) = (enc, fn)) ∧
    (transformEncoder (model_fn (save_model enc fn)).1 cols = transformEncoder enc cols) := by
  refine ⟨?_, ?_, rfl, rfl⟩
  · intro hv
    have hm : v ∈ fitColumn vs := mem_fitColumn.mpr hv
    have hlt : (fitColumn vs).indexOf v < (fitColumn vs).length :=
      List.indexOf_lt_length.mpr hm
    simp only [encodeValue, if_pos hm, decodeValue]
    rw [if_neg (not_lt.mpr (Int.natCast_nonneg _)), Int.toNat_natCast]
    rw [List.get?_eq_get hlt, List.indexOf_get hlt]
  · intro hv
    exact if_neg (fun hm => hv (mem_fitColumn.mp hm))

/-- Witness for C6 at a concrete corpus: the code of an observed value decodes
back to it. -/
theorem C6_encoder_decode_and_persistence_roundtrip_witness :
    decodeValue (fitColumn ["US", "CA", "US"])
      (encodeValue (fitColumn ["US", "CA", "US"]) "US") = some "US" :=
  (C6_encoder_decode_and_persistence_roundtrip ["US", "CA", "US"] "US" [] [] []).1
    (by decide)

/-- C8 counterexample: the claim asks for an identical target column name
across all four scripts, but the serving script sagemaker/inference.py
declares no target column constant at all, unlike the training extractor. -/
theorem C8_contract_counterexample :
    InferenceScript.contract.target ≠ ExtractTrainingData.contract.target := by
  decide

/-- C8 amended: the ordered boolean, categorical and numeric column lists are
element-for-element identical across all four scripts, the concatenated
ALL_RAW_FEATURES list of the serving script is exactly their concatenation,
and the target column name is identical across the three scripts that declare
one; the serving script declares no target constant. -/
theorem C8_contract_amended :
    ExtractTrainingData.BOOLEAN_FEATURES = ExtractInferenceData.BOOLEAN_FEATURES ∧
    ExtractInferenceData.BOOLEAN_FEATURES = TrainingScript.BOOLEAN_FEATURES ∧
    TrainingScript.BOOLEAN_FEATURES = InferenceScript.BOOLEAN_FEATURES ∧
    ExtractTrainingData.CATEGORICAL_FEATURES = ExtractInferenceData.CATEGORICAL_FEATURES ∧
    ExtractInferenceData.CATEGORICAL_FEATURES = TrainingScript.CATEGORICAL_FEATURES ∧
    TrainingScript.CATEGORICAL_FEATURES = InferenceScript.CATEGORICAL_FEATURES ∧
    ExtractTrainingData.NUMERIC_FEATURES = ExtractInferenceData.NUMERIC_FEATURES ∧
    ExtractInferenceData.NUMERIC_FEATURES = TrainingScript.NUMERIC_FEATURES ∧
    TrainingScript.NUMERIC_FEATURES = InferenceScript.NUMERIC_FEATURES ∧
    ExtractTrainingData.TARGET = ExtractInferenceData.TARGET ∧
    ExtractInferenceData.TARGET = TrainingScript.TARGET ∧
    InferenceScript.contract.target = none ∧
    InferenceScript.ALL_RAW_FEATURES =
      InferenceScript.BOOLEAN_FEATURES ++ InferenceScript.CATEGORICAL_FEATURES
        ++ InferenceScript.NUMERIC_FEATURES :=
  ⟨rfl, rfl, rfl, rfl, rfl, rfl, rfl, rfl, rfl, rfl, rfl, rfl, rfl⟩

theorem split_label_train_eq_not_test (draw : Int → SourceRow → ℚ) (seed : Int)
    (f : ℚ) (r : SourceRow) :
    decide (split_label draw seed f r = "TRAIN")
      = ! decide (split_label draw seed f r = "TEST") := by
  by_cases h : draw seed r < f
  · simp [split_label, data_split_eq_train, data_split_eq_test, h, not_le.mpr h]
  · simp [split_label, data_split_eq_train, data_split_eq_test, h, le_of_not_lt h]

/-- C3: every training-eligible row, meaning its target is non-null and its
age lies in the caller-supplied day window, receives a pseudo-random draw in
the unit interval keyed by the seed and is labelled TEST exactly when the draw
is below the test fraction and TRAIN otherwise; the TRAIN and TEST sets are
disjoint, together cover all eligible rows, and are stable across runs that
produce the same draws for the seed. -/
theorem C3_train_test_split (draw : Int → SourceRow → ℚ) (seed : Int) (f : ℚ)
    (current_date days_limit : Int) (rows : List SourceRow)
    (hdraw : ∀ s r, 0 ≤ draw s r ∧ draw s r < 1) :
    (∀ r, r ∈ test_set draw seed f current_date days_limit rows ↔
      r ∈ eligible_rows current_date days_limit rows ∧
        0 ≤ draw seed r ∧ draw seed r < f) ∧
    (∀ r, r ∈ train_set draw seed f current_date days_limit rows ↔
      r ∈ eligible_rows current_date days_limit rows ∧ f ≤ draw seed r) ∧
    (∀ r, ¬ (r ∈ test_set draw seed f current_date days_limit rows ∧
      r ∈ train_set draw seed f current_date days_limit rows)) ∧
    ((test_set draw seed f current_date days_limit rows).length +
      (train_set draw seed f current_date days_limit rows).length =
      (eligible_rows current_date days_limit rows).length) ∧
    (∀ r ∈ eligible_rows current_date days_limit rows,
      r.target ≠ Value.null ∧ current_date - days_limit ≤ r.created_at) ∧
    (∀ draw2 : Int → SourceRow → ℚ, (∀ r, draw2 seed r = draw seed r) →
      test_set draw2 seed f current_date days_limit rows =
        test_set draw seed f current_date days_limit rows ∧
      train_set draw2 seed f current_date days_limit rows =
        train_set draw seed f current_date days_limit rows) := by
  have hmem : ∀ r, r ∈ test_set draw seed f current_date days_limit rows ↔
      r ∈ eligible_rows current_date days_limit rows ∧ draw seed r < f := by
    intro r
    simp [test_set, List.mem_filter, split_label, data_split_eq_test]
  have hmem2 : ∀ r, r ∈ train_set draw seed f current_date days_limit rows ↔
      r ∈ eligible_rows current_date days_limit rows ∧ f ≤ draw seed r := by
    intro r
    simp [train_set, List.mem_filter, split_label, data_split_eq_train]
  refine ⟨?_, hmem2, ?_, ?_, ?_, ?_⟩
  · intro r
    rw [hmem r]
    constructor
    · rintro ⟨he, hf⟩
      exact ⟨he, (hdraw seed r).1, hf⟩
    · rintro ⟨he, _, hf⟩
      exact ⟨he, hf⟩
  · rintro r ⟨h1, h2⟩
    exact absurd ((hmem r).mp h1).2 (not_lt.mpr ((hmem2 r).mp h2).2)
  · have hcongr : train_set draw seed f current_date days_limit rows
        = (eligible_rows current_date days_limit rows).filter
            (fun r => ! decide (split_label draw seed f r = "TEST")) := by
      unfold train_set
      exact List.filter_congr (fun r _ => split_label_train_eq_not_test draw seed f r)
    rw [hcongr]
    unfold test_set
    exact length_filter_add_length_filter_not _ _
  · intro r hr
    simp [eligible_rows, List.mem_filter, eligible] at hr
    refine ⟨hr.2.1, ?_⟩
    have := hr.2.2
    omega
  · intro draw2 h2
    constructor
    · unfold test_set
      exact List.filter_congr (fun r _ => by simp [split_label, h2 r])
    · unfold train_set
      exact List.filter_congr (fun r _ => by simp [split_label, h2 r])

/-- Witness for C3 at a concrete two-row input with one ineligible row: the
TEST and TRAIN sizes sum to the eligible count. -/
theorem C3_train_test_split_witness :
    (test_set (fun _ _ => (1 : ℚ) / 2) 42 default_test_size 100 30
        [⟨Value.num 50, 100⟩, ⟨Value.null, 100⟩]).length +
      (train_set (fun _ _ => (1 : ℚ) / 2) 42 default_test_size 100 30
        [⟨Value.num 50, 100⟩, ⟨Value.null, 100⟩]).length =
      (eligible_rows 100 30 [⟨Value.num 50, 100⟩, ⟨Value.null, 100⟩]).length :=
  (C3_train_test_split (fun _ _ => (1 : ℚ) / 2) 42 default_test_size 100 30
    [⟨Value.num 50, 100⟩, ⟨Value.null, 100⟩]
    (fun _ _ => ⟨by norm_num, by norm_num⟩)).2.2.2.1

theorem filter_available_congr {avail avail2 : List String}
    (h : ∀ c, c ∈ avail ↔ c ∈ avail2) (F : List String) :
    filter_available F avail = filter_available F avail2 :=
  List.filter_congr (fun c _ => by simp [h c])

/-- C4: feature assembly produces the column order of all boolean columns in
declared order, then all categorical columns in declared order renamed with
the _ENCODED suffix, then all numeric columns in declared order, and this
order depends only on which columns are present in the input, not on the
order in which they arrived; reindexing then yields exactly the persisted
feature-name order. -/
theorem C4_assembly_column_order (boolF catF numF : List String)
    (enc : String → List String) (r : Row) (avail avail2 : List String)
    (order : List String) (r2 r3 : Row) :
    ((∀ c, c ∈ avail ↔ c ∈ avail2) →
      assembled_names boolF catF numF avail = assembled_names boolF catF numF avail2) ∧
    (rowCols r = avail →
      rowCols (assemble_row boolF catF numF enc avail r)
        = assembled_names boolF catF numF avail) ∧
    (reindex_row order r2 = some r3 → rowCols r3 = order) := by
  refine ⟨?_, ?_, reindex_row_cols⟩
  · intro h
    simp [assembled_names, filter_available_congr h]
  · intro h
    exact rowCols_assemble_row boolF catF numF enc avail r h

/-- Witness for C4: two arrival orders of the same three raw columns yield the
same assembled column order, which is the boolean column, then the encoded
categorical column, then the numeric column. -/
theorem C4_assembly_column_order_witness :
    assembled_names InferenceScript.BOOLEAN_FEATURES InferenceScript.CATEGORICAL_FEATURES
        InferenceScript.NUMERIC_FEATURES ["IP_API_LATITUDE", "IP_API_CITY", "IP_API_HOSTING"]
      = assembled_names InferenceScript.BOOLEAN_FEATURES InferenceScript.CATEGORICAL_FEATURES
        InferenceScript.NUMERIC_FEATURES ["IP_API_HOSTING", "IP_API_LATITUDE", "IP_API_CITY"] ∧
    assembled_names InferenceScript.BOOLEAN_FEATURES InferenceScript.CATEGORICAL_FEATURES
        InferenceScript.NUMERIC_FEATURES ["IP_API_LATITUDE", "IP_API_CITY", "IP_API_HOSTING"]
      = ["IP_API_HOSTING", "IP_API_CITY_ENCODED", "IP_API_LATITUDE"] :=
  ⟨(C4_assembly_column_order InferenceScript.BOOLEAN_FEATURES
      InferenceScript.CATEGORICAL_FEATURES InferenceScript.NUMERIC_FEATURES
      (fun _ => []) [] ["IP_API_LATITUDE", "IP_API_CITY", "IP_API_HOSTING"]
      ["IP_API_HOSTING", "IP_API_LATITUDE", "IP_API_CITY"] [] [] []).1
      (by intro c; constructor <;> (intro hc; simp at hc ⊢; tauto)),
   by decide⟩

theorem zip_get?_eq : ∀ (l1 : List α) (l2 : List β) (i : ℕ) (a : α) (b : β),
    (l1.zip l2).get? i = some (a, b) → l1.get? i = some a ∧ l2.get? i = some b := by
  intro l1
  induction l1 with
  | nil =>
    intro l2 i a b h
    simp at h
  | cons x xs ih =>
    intro l2 i a b h
    cases l2 with
    | nil => simp at h
    | cons y ys =>
      cases i with
      | zero =>
        simp at h
        simp [h]
      | succ j =>
        simp only [List.zip_cons_cons, List.get?_cons_succ] at h ⊢
        exact ih ys j a b h

/-- C7: when the id file and the prediction file hold the same number of rows,
the positional join of the loader pairs each id with exactly the score at the
identical row position; the joined output is the positional zip of the two
files, has exactly that many rows, and drops or duplicates no id. -/
theorem C7_positional_score_join (ids : List String) (preds : List ℚ)
    (h : ids.length = preds.length) :
    join_on_idx (add_row_idx ids) (add_row_idx preds) = ids.zip preds ∧
    (join_on_idx (add_row_idx ids) (add_row_idx preds)).length = ids.length ∧
    (∀ i a b, (join_on_idx (add_row_idx ids) (add_row_idx preds)).get? i = some (a, b) →
      ids.get? i = some a ∧ preds.get? i = some b) := by
  have hmain : join_on_idx (add_row_idx ids) (add_row_idx preds) = ids.zip preds := by
    simpa [add_row_idx, List.enum_eq_enumFrom] using join_on_idx_enumFrom 0 ids preds h
  refine ⟨hmain, ?_, ?_⟩
  · rw [hmain, List.length_zip]
    omega
  · intro i a b hi
    rw [hmain] at hi
    exact zip_get?_eq ids preds i a b hi

/-- Witness for C7 at a concrete two-row batch. -/
theorem C7_positional_score_join_witness :
    join_on_idx (add_row_idx ["id1", "id2"]) (add_row_idx [(1 : ℚ) / 2, 3 / 4])
      = ["id1", "id2"].zip [(1 : ℚ) / 2, 3 / 4] :=
  (C7_positional_score_join ["id1", "id2"] [(1 : ℚ) / 2, 3 / 4] (by decide)).1

/-- C9: if some column required by the persisted training-time feature-name
order is absent from the assembled serving input, the prediction call fails
with no scores at all for the batch; and whenever the call succeeds, every row
of the batch receives exactly one score. -/
theorem C9_missing_feature_column_fatal (m : Row → ℚ) (enc : String → List String)
    (feature_names avail : List String) (input_data : List Row)
    (hrows : ∀ r ∈ input_data, rowCols r = avail) :
    ((∃ fname ∈ feature_names,
        fname ∉ assembled_names InferenceScript.BOOLEAN_FEATURES
          InferenceScript.CATEGORICAL_FEATURES InferenceScript.NUMERIC_FEATURES avail) →
      input_data ≠ [] →
      predict_fn m enc feature_names avail input_data = none) ∧
    (∀ scores, predict_fn m enc feature_names avail input_data = some scores →
      scores.length = input_data.length) := by
  constructor
  · rintro ⟨fname, hfn, hnot⟩ hne
    obtain ⟨r0, hr0⟩ := List.exists_mem_of_ne_nil input_data hne
    have hcols := rowCols_assemble_row InferenceScript.BOOLEAN_FEATURES
      InferenceScript.CATEGORICAL_FEATURES InferenceScript.NUMERIC_FEATURES enc avail r0
      (hrows r0 hr0)
    have hlook : lookupCol fname (assemble_row InferenceScript.BOOLEAN_FEATURES
        InferenceScript.CATEGORICAL_FEATURES InferenceScript.NUMERIC_FEATURES
        enc avail r0) = none :=
      lookupCol_eq_none.mpr (by rw [hcols]; exact hnot)
    have hmo : collectSome (fun r => reindex_row feature_names
        (assemble_row InferenceScript.BOOLEAN_FEATURES InferenceScript.CATEGORICAL_FEATURES
          InferenceScript.NUMERIC_FEATURES enc avail r)) input_data = none :=
      collectSome_eq_none.mpr ⟨r0, hr0, reindex_row_eq_none.mpr ⟨fname, hfn, hlook⟩⟩
    simp [predict_fn, hmo]
  · intro scores hs
    unfold predict_fn at hs
    cases hmo : collectSome (fun r => reindex_row feature_names
        (assemble_row InferenceScript.BOOLEAN_FEATURES InferenceScript.CATEGORICAL_FEATURES
          InferenceScript.NUMERIC_FEATURES enc avail r)) input_data with
    | none =>
      rw [hmo] at hs
      simp at hs
    | some rows =>
      rw [hmo] at hs
      simp only [Option.map_some', Option.some.injEq] at hs
      rw [← hs]
      simp [collectSome_length hmo]

/-- Witness for C9: a one-row batch whose persisted feature order requires a
column absent from the input is scored not at all. -/
theorem C9_missing_feature_column_fatal_witness :
    predict_fn (fun _ => 0) (fun _ => []) ["NOT_A_COLUMN"] ["IP_API_HOSTING"]
      [[("IP_API_HOSTING", Value.num 1)]] = none :=
  (C9_missing_feature_column_fatal (fun _ => 0) (fun _ => []) ["NOT_A_COLUMN"]
    ["IP_API_HOSTING"] [[("IP_API_HOSTING", Value.num 1)]] (by decide)).1
    (by decide) (by decide)

/-- C10: the request parser fails for every content type other than text/csv
and application/json; the response formatter fails for every accept type other
than text/csv, application/json and the star/star wildcard, which the code
treats like text/csv; a CSV accept yields newline-delimited scores and a JSON
accept yields a JSON array. -/
theorem C10_content_type_dispatch (parse_json : String → Option (List Row))
    (body : String) (ct : String) (render : ℚ → String) (pred : List ℚ)
    (acc : String) :
    (ct ≠ "text/csv" → ct ≠ "application/json" → input_fn parse_json body ct = none) ∧
    (input_fn parse_json body "text/csv"
      = some (read_csv_noheader InferenceScript.ALL_RAW_FEATURES body)) ∧
    (input_fn parse_json body "application/json" = parse_json body) ∧
    (acc ≠ "text/csv" → acc ≠ "application/json" → acc ≠ "*/*" →
      output_fn render pred acc = none) ∧
    (output_fn render pred "text/csv" = some (String.intercalate "\n" (pred.map render))) ∧
    (output_fn render pred "application/json"
      = some ("[" ++ String.intercalate ", " (pred.map render) ++ "]")) ∧
    (output_fn render pred "*/*" = output_fn render pred "text/csv") := by
  refine ⟨?_, ?_, ?_, ?_, ?_, ?_, ?_⟩
  · intro h1 h2
    unfold input_fn
    rw [if_neg h1, if_neg h2]
  · unfold input_fn
    rw [if_pos rfl]
  · unfold input_fn
    rw [if_neg (by decide), if_pos rfl]
  · intro h1 h2 h3
    unfold output_fn
    rw [if_neg (fun hor => hor.elim (fun h => h1 h) (fun h => h3 h)), if_neg h2]
  · unfold output_fn
    rw [if_pos (Or.inl rfl)]
  · unfold output_fn
    rw [if_neg (by decide), if_pos rfl]
  · unfold output_fn
    rw [if_pos (Or.inr rfl), if_pos (Or.inl rfl)]

/-- Witness for C10: an unsupported content type and an unsupported accept
type both fail. -/
theorem C10_content_type_dispatch_witness :
    input_fn (fun _ => none) "" "text/plain" = none ∧
    output_fn (fun _ => "") [] "text/plain" = none :=
  ⟨(C10_content_type_dispatch (fun _ => none) "" "text/plain" (fun _ => "") []
      "text/plain").1 (by decide) (by decide),
   (C10_content_type_dispatch (fun _ => none) "" "text/plain" (fun _ => "") []
      "text/plain").2.2.2.1 (by decide) (by decide) (by decide)⟩
